import Mathlib

/-!
Verification of the repository inactivity analyzer.

This file gives a shallow embedding of the classification and reporting core
of the analyzer (Go sources: `pkg/analyzer/analyzer.go`, `pkg/analyzer/archive.go`,
`pkg/config/config.go`, `cmd/main.go`) and proves properties of it.

Modelling conventions:
* Go `float64` values (the inactive fraction and the threshold) are modelled as `ℚ`.
  The two float divisions performed by the program (`inactive / total` and the
  comparisons against the threshold) are modelled exactly.
* Go `time.Time` values are modelled as Unix seconds (`ℤ`).  `time.Duration.Hours`
  is seconds divided by 3600, and Go's `int(...)` conversion on a float truncates
  toward zero (`ratTrunc`).
* The external GitHub CLI collaborator is abstracted as explicit fetch functions
  returning `Except String _`; a failing subprocess invocation is an `error` value.
* Console output is modelled as the ordered list of strings passed to the print
  calls; file output as a list of `(path, contents)` pairs.
-/

/-- The character for a single decimal digit `d < 10` (Go `fmt` verbs emit ASCII digits). -/
def digitChar (d : ℕ) : Char := Char.ofNat (48 + d)

/-- Numeric value of a decimal digit character. -/
def digitToNat (c : Char) : ℕ := c.toNat - 48

/-- Little recursion producing the decimal digits of `n` least-significant first;
`fuel ≥ n` suffices since `n / 10 < n` for `n > 0`. -/
def natToDecCharsAux : ℕ → ℕ → List Char
  | 0, _ => []
  | _ + 1, 0 => []
  | fuel + 1, n + 1 => digitChar ((n + 1) % 10) :: natToDecCharsAux fuel ((n + 1) / 10)

/-- Decimal numeral of a natural number as a character list (Go `%d`). -/
def natReprChars (n : ℕ) : List Char :=
  if n = 0 then ['0'] else (natToDecCharsAux n n).reverse

/-- Decimal numeral of a natural number (Go `%d`). -/
def natToDecStr (n : ℕ) : String := String.mk (natReprChars n)

/-- Decimal numeral of an integer (Go `%d` on a possibly negative int). -/
def intToDecStr (i : ℤ) : String :=
  if i < 0 then "-" ++ natToDecStr i.natAbs else natToDecStr i.toNat

/-- Reads a decimal numeral: folds digits most-significant first. -/
def parseNatChars (l : List Char) : ℕ :=
  l.foldl (fun a c => 10 * a + digitToNat c) 0

/-- Exactly two decimal digit characters for `k < 100` (the two forced fractional
digits of Go `%.2f` output). -/
def pad2Chars (k : ℕ) : List Char := [digitChar (k / 10), digitChar (k % 10)]

/-- Splits a character list at the first decimal point, dropping the point. -/
def splitOnDot : List Char → List Char × List Char
  | [] => ([], [])
  | c :: cs =>
    if c = '.' then ([], cs)
    else
      let p := splitOnDot cs
      (c :: p.1, p.2)

/-- Reads back an unsigned decimal such as `"312.50"`: integer part plus
fractional part scaled by its printed length. -/
def parseDecimal (s : String) : ℚ :=
  let p := splitOnDot s.toList
  (parseNatChars p.1 : ℚ) + (parseNatChars p.2 : ℚ) / 10 ^ p.2.length

/-- Rounding to the nearest integer with ties to even, the rounding Go's `fmt`
applies when formatting a float with a fixed number of fractional digits. -/
def roundHalfEven (q : ℚ) : ℤ :=
  let f := ⌊q⌋
  if q - f < 1 / 2 then f
  else if (1 : ℚ) / 2 < q - f then f + 1
  else if 2 ∣ f then f else f + 1

/-- The value `q` rounded to 2 decimal places. -/
def round2dp (q : ℚ) : ℚ := (roundHalfEven (q * 100) : ℚ) / 100

/-- Character list of Go `%.2f` for the nonnegative value with `m` hundredths. -/
def decChars2 (m : ℕ) : List Char :=
  natReprChars (m / 100) ++ '.' :: pad2Chars (m % 100)

/-- Go `fmt.Sprintf("%.2f", q)` under the rational model. -/
def formatFloat2 (q : ℚ) : String :=
  let n := roundHalfEven (q * 100)
  if n < 0 then String.mk ('-' :: decChars2 n.natAbs) else String.mk (decChars2 n.toNat)

/-- Go `fmt.Sprintf("%.1f", q)` under the rational model (console percentages). -/
def formatFloat1 (q : ℚ) : String :=
  let n := roundHalfEven (q * 10)
  let one := fun m : ℕ => natReprChars (m / 10) ++ '.' :: [digitChar (m % 10)]
  if n < 0 then String.mk ('-' :: one n.natAbs) else String.mk (one n.toNat)

/-- Go `int(x)` conversion on a float: truncation toward zero. -/
def ratTrunc (q : ℚ) : ℤ := if 0 ≤ q then ⌊q⌋ else ⌈q⌉

/-- Left-pads a numeral with zeros to width `w` (Go zero-padded date components). -/
def padZeros (w : ℕ) (l : List Char) : List Char :=
  List.replicate (w - l.length) '0' ++ l

/-- Gregorian calendar date for a day count from the Unix epoch (the civil-from-days
algorithm; Go's `time` package produces the same year, month and day for UTC). -/
def civilFromDays (z0 : ℤ) : ℤ × ℤ × ℤ :=
  let z := z0 + 719468
  let era : ℤ := Int.tdiv (if 0 ≤ z then z else z - 146096) 146097
  let doe := z - era * 146097
  let yoe := Int.tdiv (doe - Int.tdiv doe 1460 + Int.tdiv doe 36524 - Int.tdiv doe 146096) 365
  let y := yoe + era * 400
  let doy := doe - (365 * yoe + Int.tdiv yoe 4 - Int.tdiv yoe 100)
  let mp := Int.tdiv (5 * doy + 2) 153
  let d := doy - Int.tdiv (153 * mp + 2) 5 + 1
  let m := if mp < 10 then mp + 3 else mp - 9
  (if m ≤ 2 then y + 1 else y, m, d)

/-- Go `t.Format("2006-01-02")` on a Unix-seconds timestamp. -/
def formatDate (t : ℤ) : String :=
  let c := civilFromDays (Int.fdiv t 86400)
  String.mk (padZeros 4 (natReprChars c.1.toNat) ++ '-' :: pad2Chars c.2.1.toNat
    ++ '-' :: pad2Chars c.2.2.toNat)

/-- RFC 3339 rendering of a UTC Unix-seconds timestamp, the form `encoding/json`
gives a `time.Time` field. -/
def rfc3339 (t : ℤ) : String :=
  let secs := (t - 86400 * Int.fdiv t 86400).toNat
  formatDate t ++ String.mk ('T' :: pad2Chars (secs / 3600) ++ ':' :: pad2Chars (secs % 3600 / 60)
    ++ ':' :: pad2Chars (secs % 60) ++ ['Z'])

/-- Embeds `config.Config` (pkg/config/config.go). -/
structure Config where
  organization : String := ""
  singleRepository : String := ""
  repoListFile : String := ""
  maxCommitAgeInDays : ℤ := 0
  inactiveContribThreshold : ℚ := 0
  outputFormat : String := ""
  outputFile : String := ""
  silent : Bool := false

/-- Embeds `analyzer.Repository` (pkg/analyzer/analyzer.go lines 18-27); the field
defaults are the Go zero values the struct literal starts from. -/
structure Repository where
  name : String := ""
  lastCommitDate : ℤ := 0
  daysSinceLastCommit : ℤ := 0
  totalContributors : ℕ := 0
  inactiveContributors : ℕ := 0
  inactivePercentage : ℚ := 0
  archived : Bool := false
  flagged : Bool := false

/-- Embeds analyzer.go lines 244-246: `InactivePercentage` keeps its zero value
unless `TotalContributors > 0`, in which case it is the float quotient. -/
def computeInactivePercentage (total inactive : ℕ) : ℚ :=
  if 0 < total then (inactive : ℚ) / (total : ℚ) else 0

/-- Embeds `int(now.Sub(lastCommitDate).Hours() / 24)` (analyzer.go line 230,
main.go lines 418 and 598): seconds difference, divided by 3600 then 24 as a
float, truncated toward zero by Go's int conversion. -/
def daysSince (now lastCommit : ℤ) : ℤ :=
  ratTrunc (((now - lastCommit : ℤ) : ℚ) / 3600 / 24)

/-- Embeds the organization-mode flagging rule, analyzer.go lines 252-270:
archived repositories are flagged unconditionally; otherwise a repository is
flagged when it is older than the limit and either has no contributors or its
inactive fraction reaches the threshold (inclusive). -/
def classifyOrg (cfg : Config) (r : Repository) : Bool :=
  if r.archived then true
  else if r.daysSinceLastCommit > cfg.maxCommitAgeInDays then
    if 0 < r.totalContributors then
      if r.inactivePercentage ≥ cfg.inactiveContribThreshold then true else false
    else true
  else false

/-- Embeds the single-repository flagging rule, main.go lines 433-446: identical
to the organization rule except that `Archived` is never consulted. -/
def classifySingle (cfg : Config) (r : Repository) : Bool :=
  if r.daysSinceLastCommit > cfg.maxCommitAgeInDays then
    if 0 < r.totalContributors then
      if r.inactivePercentage ≥ cfg.inactiveContribThreshold then true else false
    else true
  else false

/-- Embeds the file-batch flagging rule, main.go lines 623-636, which duplicates
the single-repository code verbatim (no archived short-circuit). -/
def classifyFile (cfg : Config) (r : Repository) : Bool :=
  if r.daysSinceLastCommit > cfg.maxCommitAgeInDays then
    if 0 < r.totalContributors then
      if r.inactivePercentage ≥ cfg.inactiveContribThreshold then true else false
    else true
  else false

/-- Builds the record for one repository in organization mode after all three
fetches succeeded (analyzer.go lines 208-270). -/
def buildRecordOrg (cfg : Config) (now : ℤ) (name : String) (archived : Bool)
    (lastCommit : ℤ) (active inactive : ℕ) : Repository :=
  let base : Repository :=
    { name := name
      archived := archived
      lastCommitDate := lastCommit
      daysSinceLastCommit := daysSince now lastCommit
      totalContributors := active + inactive
      inactiveContributors := inactive
      inactivePercentage := computeInactivePercentage (active + inactive) inactive }
  { base with flagged := classifyOrg cfg base }

/-- Builds the record for the single-repository mode (main.go lines 386-446). -/
def buildRecordSingle (cfg : Config) (now : ℤ) (name : String) (archived : Bool)
    (lastCommit : ℤ) (active inactive : ℕ) : Repository :=
  let base : Repository :=
    { name := name
      archived := archived
      lastCommitDate := lastCommit
      daysSinceLastCommit := daysSince now lastCommit
      totalContributors := active + inactive
      inactiveContributors := inactive
      inactivePercentage := computeInactivePercentage (active + inactive) inactive }
  { base with flagged := classifySingle cfg base }

/-- Builds the record for one line of the file-batch mode (main.go lines 566-651). -/
def buildRecordFile (cfg : Config) (now : ℤ) (name : String) (archived : Bool)
    (lastCommit : ℤ) (active inactive : ℕ) : Repository :=
  let base : Repository :=
    { name := name
      archived := archived
      lastCommitDate := lastCommit
      daysSinceLastCommit := daysSince now lastCommit
      totalContributors := active + inactive
      inactiveContributors := inactive
      inactivePercentage := computeInactivePercentage (active + inactive) inactive }
  { base with flagged := classifyFile cfg base }

/-- One iteration of the organization-mode loop (analyzer.go lines 206-272): each
of the three fetches is attempted in order; any failure makes the iteration
`continue` without contributing a record. -/
def analyzeRepoOrg (fetchArchived : String → Except String Bool)
    (fetchLastCommit : String → Except String ℤ)
    (fetchContributors : String → Except String (ℕ × ℕ))
    (cfg : Config) (now : ℤ) (repoName : String) : Option Repository :=
  let full := cfg.organization ++ "/" ++ repoName
  match fetchArchived full with
  | .error _ => none
  | .ok archived =>
    match fetchLastCommit full with
    | .error _ => none
    | .ok lastCommit =>
      match fetchContributors full with
      | .error _ => none
      | .ok contribs => some (buildRecordOrg cfg now full archived lastCommit contribs.1 contribs.2)

/-- Embeds `AnalyzeRepositories` (analyzer.go lines 111-292) over the abstract
fetchers: the per-repository loop accumulating the records of the successfully
fetched repositories, in input order. -/
def AnalyzeRepositories (fetchArchived : String → Except String Bool)
    (fetchLastCommit : String → Except String ℤ)
    (fetchContributors : String → Except String (ℕ × ℕ))
    (cfg : Config) (now : ℤ) (repoNames : List String) : List Repository :=
  repoNames.filterMap (analyzeRepoOrg fetchArchived fetchLastCommit fetchContributors cfg now)

/-- Embeds the fetch-and-classify part of `analyzeSingleRepository` (main.go lines
386-446): a failed archived check only logs a warning (the field keeps its zero
value `false`), while a failed commit-date or contributor fetch aborts the run. -/
def analyzeSingleRepository (fetchArchived : String → Except String Bool)
    (fetchLastCommit : String → Except String ℤ)
    (fetchContributors : String → Except String (ℕ × ℕ))
    (cfg : Config) (now : ℤ) (repoFullName : String) : Except String Repository :=
  let archived := match fetchArchived repoFullName with
    | .ok a => a
    | .error _ => false
  match fetchLastCommit repoFullName with
  | .error e => .error e
  | .ok lastCommit =>
    match fetchContributors repoFullName with
    | .error e => .error e
    | .ok contribs =>
      .ok (buildRecordSingle cfg now repoFullName archived lastCommit contribs.1 contribs.2)

/-- Go's `%t` boolean rendering. -/
def boolStr (b : Bool) : String := if b then "true" else "false"

/-- Number of flagged records (analyzer.go lines 395-400). -/
def flaggedCount (repos : List Repository) : ℕ := repos.countP (·.flagged)

/-- The CSV header row written by both renderers (analyzer.go lines 422 and 536). -/
def csvHeader : String :=
  "Repository Name,Last Commit Date,Days Since Last Commit,Total Contributors,Inactive Contributors,Inactive Percentage,Archived,Flagged"

/-- The eight fields of one CSV data row, in the order of the `Sprintf` verb list
`%s,%s,%d,%d,%d,%.2f,%t,%t` (analyzer.go lines 426-434): name, date, days, total
contributors, inactive contributors, percentage on the 0-100 scale with two
decimals, archived, flagged. -/
def csvRowFields (r : Repository) : List String :=
  [r.name,
   formatDate r.lastCommitDate,
   intToDecStr r.daysSinceLastCommit,
   natToDecStr r.totalContributors,
   natToDecStr r.inactiveContributors,
   formatFloat2 (r.inactivePercentage * 100),
   boolStr r.archived,
   boolStr r.flagged]

/-- One CSV data row: the eight fields joined by commas. -/
def csvRow (r : Repository) : String := String.intercalate "," (csvRowFields r)

/-- The CSV buffer built by `OutputResults`: the header row then one row per
record, each terminated by a newline (analyzer.go lines 419-435). -/
def csvBody (repos : List Repository) : String :=
  csvHeader ++ "\n" ++ String.join (repos.map fun r => csvRow r ++ "\n")

/-- JSON string quoting (repository names and timestamps need no escapes). -/
def jsonQuote (s : String) : String := "\"" ++ s ++ "\""

/-- Decimal rendering of a float value for JSON output (integer part and the
decimal expansion of the fractional part; terminates within the model's
precision budget). -/
def decExpansionAux : ℕ → ℕ → ℕ → List Char
  | 0, _, _ => []
  | _ + 1, _, 0 => []
  | fuel + 1, den, r => digitChar (r * 10 / den % 10) :: decExpansionAux fuel den (r * 10 % den)

/-- JSON number rendering of a rational float value. -/
def jsonNumber (q : ℚ) : String :=
  let n := q.num.natAbs
  let d := q.den
  let frac := decExpansionAux 17 d (n % d)
  (if q < 0 then "-" else "") ++ String.mk (natReprChars (n / d))
    ++ (if frac.isEmpty then "" else String.mk ('.' :: frac))

/-- The JSON members of one record in struct declaration order with the
`json:"..."` tag names of `analyzer.Repository` (analyzer.go lines 18-27). -/
def repoJsonFields (r : Repository) : List (String × String) :=
  [("name", jsonQuote r.name),
   ("lastCommitDate", jsonQuote (rfc3339 r.lastCommitDate)),
   ("daysSinceLastCommit", intToDecStr r.daysSinceLastCommit),
   ("totalContributors", natToDecStr r.totalContributors),
   ("inactiveContributors", natToDecStr r.inactiveContributors),
   ("inactivePercentage", jsonNumber r.inactivePercentage),
   ("archived", boolStr r.archived),
   ("flagged", boolStr r.flagged)]

/-- A JSON object rendered as `json.MarshalIndent` does with indent `"  "`:
every member line is indented two spaces past the braces, `pre` is the prefix
of the nesting level. -/
def jsonObject (pre : String) (fields : List (String × String)) : String :=
  pre ++ "\x7b\n"
    ++ String.intercalate ",\n" (fields.map fun kv => pre ++ "  " ++ jsonQuote kv.1 ++ ": " ++ kv.2)
    ++ "\n" ++ pre ++ "\x7d"

/-- Embeds `json.MarshalIndent(repos, "", "  ")` (analyzer.go line 404).  The
`repos` slice of `AnalyzeRepositories` is declared `var results []Repository`
and only ever grown by `append`, so it is the nil slice exactly when it is
empty, and `encoding/json` marshals a nil slice as the literal `null`. -/
def jsonMarshalRepos (repos : List Repository) : String :=
  if repos.isEmpty then "null"
  else "[\n" ++ String.intercalate ",\n" (repos.map fun r => jsonObject "  " (repoJsonFields r)) ++ "\n]"

/-- Embeds `json.MarshalIndent(repo, "", "  ")` for a single record (analyzer.go
line 518). -/
def jsonMarshalRepo (r : Repository) : String := jsonObject "" (repoJsonFields r)

/-- The observable effect of a renderer call: the strings printed to the console,
in order, and the files written as `(path, contents)` pairs. -/
structure Output where
  console : List String := []
  files : List (String × String) := []

/-- The three summary prints the CSV branch always emits to the console
(analyzer.go lines 446-449). -/
def csvSummary (cfg : Config) (repos : List Repository) : List String :=
  ["\n📊 Analysis Results for " ++ cfg.organization ++ "\n",
   "Total repositories analyzed: " ++ natToDecStr repos.length ++ "\n",
   "🚩 Flagged repositories: " ++ natToDecStr (flaggedCount repos) ++ "\n"]

/-- The console prints for one flagged record in the console format
(analyzer.go lines 461-471). -/
def consoleRepoBlock (r : Repository) : List String :=
  ["- " ++ r.name ++ "\n",
   "  Last commit: " ++ formatDate r.lastCommitDate ++ " (" ++ intToDecStr r.daysSinceLastCommit ++ " days ago)\n",
   "  Contributors: " ++ natToDecStr r.totalContributors ++ " total, "
     ++ natToDecStr r.inactiveContributors ++ " inactive (" ++ formatFloat1 (r.inactivePercentage * 100) ++ "%)\n",
   if r.archived then "  📦 Repository Status: Archived\n\n" else "  📦 Repository Status: Not Archived\n\n"]

/-- The section of the plain-text report for one flagged record
(analyzer.go lines 487-501). -/
def reportRepoBlock (r : Repository) : String :=
  "- " ++ r.name ++ "\n"
    ++ "  Last commit: " ++ formatDate r.lastCommitDate ++ " (" ++ intToDecStr r.daysSinceLastCommit ++ " days ago)\n"
    ++ "  Contributors: " ++ natToDecStr r.totalContributors ++ " total, "
      ++ natToDecStr r.inactiveContributors ++ " inactive (" ++ formatFloat1 (r.inactivePercentage * 100) ++ "%)\n"
    ++ (if r.archived then "  Repository Status: Archived\n\n" else "  Repository Status: Not Archived\n\n")

/-- The plain-text report written by the console format when an output file is
set (analyzer.go lines 477-503). -/
def consoleReport (cfg : Config) (now : ℤ) (repos : List Repository) : String :=
  "Analysis Results for " ++ cfg.organization ++ "\n"
    ++ "Date: " ++ formatDate now ++ "\n"
    ++ "Total repositories analyzed: " ++ natToDecStr repos.length ++ "\n"
    ++ "Flagged repositories: " ++ natToDecStr (flaggedCount repos) ++ "\n\n"
    ++ (if 0 < flaggedCount repos then
          "🚩 Flagged Repositories:\n---------------------\n"
            ++ String.join ((repos.filter (·.flagged)).map reportRepoBlock)
        else "")

/-- Embeds `OutputResults` (analyzer.go lines 393-512).  `now` stands for the
`time.Now()` the console-format report reads for its date line. -/
def OutputResults (repos : List Repository) (cfg : Config) (now : ℤ) : Output :=
  if cfg.outputFormat = "json" then
    let data := jsonMarshalRepos repos
    if cfg.outputFile ≠ "" then
      { files := [(cfg.outputFile, data)],
        console := ["💾 Results saved to " ++ cfg.outputFile ++ "\n"] }
    else
      { console := [data ++ "\n"] }
  else if cfg.outputFormat = "csv" then
    let body := csvBody repos
    let base : Output :=
      if cfg.outputFile ≠ "" then
        { files := [(cfg.outputFile, body)],
          console := ["💾 Results saved to " ++ cfg.outputFile ++ "\n"] }
      else
        { console := [body ++ "\n"] }
    { base with console := base.console ++ csvSummary cfg repos }
  else
    let header :=
      ["\n📊 Analysis Results for " ++ cfg.organization ++ "\n",
       "Total repositories analyzed: " ++ natToDecStr repos.length ++ "\n",
       "🚩 Flagged repositories: " ++ natToDecStr (flaggedCount repos) ++ "\n\n"]
    let listing :=
      if 0 < flaggedCount repos then
        "🚩 Flagged Repositories:\n" :: "---------------------\n"
          :: ((repos.filter (·.flagged)).map consoleRepoBlock).flatten
      else []
    if cfg.outputFile ≠ "" then
      { console := header ++ listing ++ ["💾 Results saved to " ++ cfg.outputFile ++ "\n"],
        files := [(cfg.outputFile, consoleReport cfg now repos)] }
    else
      { console := header ++ listing }

/-- Embeds `OutputSingleRepositoryResult` (analyzer.go lines 515-609). -/
def OutputSingleRepositoryResult (r : Repository) (cfg : Config) (now : ℤ) : Output :=
  if cfg.outputFormat = "json" then
    let data := jsonMarshalRepo r
    if cfg.outputFile ≠ "" then
      { files := [(cfg.outputFile, data)],
        console := ["💾 Results saved to " ++ cfg.outputFile ++ "\n"] }
    else
      { console := [data ++ "\n"] }
  else if cfg.outputFormat = "csv" then
    let body := csvHeader ++ "\n" ++ csvRow r ++ "\n"
    if cfg.outputFile ≠ "" then
      { files := [(cfg.outputFile, body)],
        console := ["💾 Results saved to " ++ cfg.outputFile ++ "\n"] }
    else
      { console := [body ++ "\n"] }
  else
    let header :=
      ["\n📊 Analysis Results for " ++ r.name ++ "\n",
       "Last commit: " ++ formatDate r.lastCommitDate ++ " (" ++ intToDecStr r.daysSinceLastCommit ++ " days ago)\n",
       "Contributors: " ++ natToDecStr r.totalContributors ++ " total, "
         ++ natToDecStr r.inactiveContributors ++ " inactive (" ++ formatFloat1 (r.inactivePercentage * 100) ++ "%)\n",
       if r.archived then "📦 Repository Status: Archived\n" else "📦 Repository Status: Active (Not Archived)\n",
       if r.flagged then "🚩 Status: Flagged as inactive\n" else "✅ Status: Active\n"]
    let report :=
      "Analysis Results for " ++ r.name ++ "\n"
        ++ "Date: " ++ formatDate now ++ "\n"
        ++ "Last commit: " ++ formatDate r.lastCommitDate ++ " (" ++ intToDecStr r.daysSinceLastCommit ++ " days ago)\n"
        ++ "Contributors: " ++ natToDecStr r.totalContributors ++ " total, "
          ++ natToDecStr r.inactiveContributors ++ " inactive (" ++ formatFloat1 (r.inactivePercentage * 100) ++ "%)\n"
        ++ (if r.archived then "Repository Status: Archived\n" else "Repository Status: Not Archived\n")
        ++ (if r.flagged then "Status: Flagged as inactive\n" else "Status: Active\n")
    if cfg.outputFile ≠ "" then
      { console := header ++ ["💾 Results saved to " ++ cfg.outputFile ++ "\n"],
        files := [(cfg.outputFile, report)] }
    else
      { console := header }

/-- Modelled from the spec: the record field names §3 of the specification lists
for the JSON rendering (identifier, lastCommitAt, daysSinceLastCommit,
totalContributors, inactiveContributors, inactiveFraction, archived, flagged);
kept separate from the code-derived `repoJsonFields` for comparison. -/
def specJsonFieldNames : List String :=
  ["identifier", "lastCommitAt", "daysSinceLastCommit", "totalContributors",
   "inactiveContributors", "inactiveFraction", "archived", "flagged"]

/-- A sample configuration: the CLI defaults with organization `acme`, except that
the threshold is 0 to keep concrete evaluation in the integers. -/
def sampleConfig : Config :=
  { organization := "acme"
    maxCommitAgeInDays := 180
    inactiveContribThreshold := 0
    outputFormat := "console"
    outputFile := ""
    silent := true }

/-- A sample non-archived stale record with no contributors. -/
def sampleRepo : Repository :=
  { name := "acme/widget"
    lastCommitDate := 0
    daysSinceLastCommit := 200
    totalContributors := 0
    inactiveContributors := 0
    inactivePercentage := 0
    archived := false
    flagged := true }

/-- A sample archived record that is not stale. -/
def sampleArchivedRepo : Repository :=
  { sampleRepo with archived := true, daysSinceLastCommit := 100, flagged := false }

/-- Sample configuration writing CSV to a file. -/
def cfgCsvFile : Config :=
  { sampleConfig with outputFormat := "csv", outputFile := "out.csv" }

/-- Sample configuration writing JSON to a file. -/
def cfgJsonFile : Config :=
  { sampleConfig with outputFormat := "json", outputFile := "out.json" }

/-- Sample configuration printing JSON to the console. -/
def cfgJsonConsole : Config :=
  { sampleConfig with outputFormat := "json" }

/-- Stub fetcher: no repository is archived. -/
def stubFetchArchived : String → Except String Bool := fun _ => .ok false

/-- Stub fetcher: the commit lookup fails for `acme/broken` only. -/
def stubFetchLastCommit : String → Except String ℤ :=
  fun s => if s = "acme/broken" then .error "no commits found" else .ok 0

/-- Stub fetcher: one active and one inactive contributor everywhere. -/
def stubFetchContributors : String → Except String (ℕ × ℕ) := fun _ => .ok (1, 1)

/-- The invariant claimed for the inactive fraction of a produced record. -/
def recordFractionOk (r : Repository) : Prop :=
  r.inactiveContributors ≤ r.totalContributors ∧
  r.inactivePercentage
    = (if r.totalContributors = 0 then 0 else (r.inactiveContributors : ℚ) / r.totalContributors) ∧
  0 ≤ r.inactivePercentage ∧ r.inactivePercentage ≤ 1

theorem digitToNat_digitChar (d : ℕ) (h : d < 10) : digitToNat (digitChar d) = d := by
  interval_cases d <;> decide

theorem digitChar_ne_dot (d : ℕ) (h : d < 10) : digitChar d ≠ '.' := by
  interval_cases d <;> decide

theorem parseNatChars_nil : parseNatChars [] = 0 := rfl

theorem parseNatChars_concat (l : List Char) (c : Char) :
    parseNatChars (l ++ [c]) = 10 * parseNatChars l + digitToNat c := by
  simp [parseNatChars, List.foldl_append]

theorem parseNatChars_aux_reverse :
    ∀ fuel n, n ≤ fuel → parseNatChars (natToDecCharsAux fuel n).reverse = n := by
  intro fuel
  induction fuel with
  | zero =>
    intro n hn
    interval_cases n
    rfl
  | succ fuel ih =>
    intro n hn
    match n with
    | 0 => rfl
    | m + 1 =>
      have hdiv : (m + 1) / 10 ≤ fuel := by omega
      rw [natToDecCharsAux, List.reverse_cons, parseNatChars_concat, ih _ hdiv,
        digitToNat_digitChar _ (Nat.mod_lt _ (by norm_num))]
      omega

theorem parseNatChars_natReprChars (n : ℕ) : parseNatChars (natReprChars n) = n := by
  unfold natReprChars
  split
  · next h => rw [h]; rfl
  · exact parseNatChars_aux_reverse n n le_rfl

theorem mem_natToDecCharsAux :
    ∀ fuel n c, c ∈ natToDecCharsAux fuel n → ∃ d, d < 10 ∧ c = digitChar d := by
  intro fuel
  induction fuel with
  | zero => intro n c hc; simp [natToDecCharsAux] at hc
  | succ fuel ih =>
    intro n c hc
    match n with
    | 0 => simp [natToDecCharsAux] at hc
    | m + 1 =>
      rw [natToDecCharsAux] at hc
      rcases List.mem_cons.mp hc with h | h
      · exact ⟨(m + 1) % 10, Nat.mod_lt _ (by norm_num), h⟩
      · exact ih _ _ h

theorem natReprChars_ne_dot (n : ℕ) (c : Char) (hc : c ∈ natReprChars n) : c ≠ '.' := by
  unfold natReprChars at hc
  split at hc
  · simp at hc
    rw [hc]
    decide
  · obtain ⟨d, hd, rfl⟩ := mem_natToDecCharsAux _ _ _ (List.mem_reverse.mp hc)
    exact digitChar_ne_dot d hd

theorem splitOnDot_append (a b : List Char) (h : ∀ c ∈ a, c ≠ '.') :
    splitOnDot (a ++ '.' :: b) = (a, b) := by
  induction a with
  | nil => simp [splitOnDot]
  | cons c cs ih =>
    have hc : c ≠ '.' := h c (List.mem_cons_self c cs)
    rw [List.cons_append, splitOnDot, if_neg hc, ih (fun x hx => h x (List.mem_cons_of_mem c hx))]

theorem parseNatChars_pad2 (k : ℕ) (h : k < 100) : parseNatChars (pad2Chars k) = k := by
  have h1 : k / 10 < 10 := by omega
  have h2 : k % 10 < 10 := by omega
  show 10 * (10 * 0 + digitToNat (digitChar (k / 10))) + digitToNat (digitChar (k % 10)) = k
  rw [digitToNat_digitChar _ h1, digitToNat_digitChar _ h2]
  omega

theorem roundHalfEven_nonneg (q : ℚ) (h : 0 ≤ q) : 0 ≤ roundHalfEven q := by
  have hf : (0 : ℤ) ≤ ⌊q⌋ := Int.floor_nonneg.mpr h
  simp only [roundHalfEven]
  split_ifs <;> omega

theorem toList_mk (l : List Char) : (String.mk l).toList = l := rfl

theorem pad2Chars_length (k : ℕ) : (pad2Chars k).length = 2 := rfl

theorem parseDecimal_formatFloat2 (q : ℚ) (h : 0 ≤ q) :
    parseDecimal (formatFloat2 q) = round2dp q := by
  have hn : 0 ≤ roundHalfEven (q * 100) := roundHalfEven_nonneg _ (by positivity)
  have hsplit : splitOnDot (decChars2 (roundHalfEven (q * 100)).toNat)
      = (natReprChars ((roundHalfEven (q * 100)).toNat / 100),
         pad2Chars ((roundHalfEven (q * 100)).toNat % 100)) := by
    unfold decChars2
    exact splitOnDot_append _ _ (natReprChars_ne_dot _)
  simp only [parseDecimal, formatFloat2]
  rw [if_neg (not_lt.mpr hn), toList_mk, hsplit]
  simp only [pad2Chars_length]
  rw [parseNatChars_natReprChars, parseNatChars_pad2 _ (Nat.mod_lt _ (by norm_num))]
  rw [round2dp, ← Int.toNat_of_nonneg hn]
  push_cast
  have key : ((roundHalfEven (q * 100)).toNat / 100 * 10 ^ 2
      + (roundHalfEven (q * 100)).toNat % 100) * 100 = (roundHalfEven (q * 100)).toNat * 10 ^ 2 := by
    have := Nat.div_add_mod (roundHalfEven (q * 100)).toNat 100
    omega
  field_simp
  exact_mod_cast key

theorem computeInactivePercentage_bounds (total inactive : ℕ) (h : inactive ≤ total) :
    computeInactivePercentage total inactive
      = (if total = 0 then 0 else (inactive : ℚ) / total) ∧
    0 ≤ computeInactivePercentage total inactive ∧
    computeInactivePercentage total inactive ≤ 1 := by
  unfold computeInactivePercentage
  rcases Nat.eq_zero_or_pos total with h0 | hpos
  · subst h0
    norm_num
  · rw [if_pos hpos, if_neg (Nat.pos_iff_ne_zero.mp hpos)]
    refine ⟨rfl, div_nonneg (Nat.cast_nonneg _) (Nat.cast_nonneg _), ?_⟩
    rw [div_le_one (by exact_mod_cast hpos)]
    exact_mod_cast h

/-- Claim C1: for every record with `archived = false` and every configuration, each
of the three classifiers (organization, single-repository, file-batch) produces
`flagged = true` exactly when `daysSinceLastCommit > maxCommitAgeDays` (strict, so
equality is not stale) and additionally either `totalContributors = 0` or
`inactiveFraction ≥ inactiveThreshold` (inclusive, so exact equality flags). -/
theorem classify_flag_iff_of_not_archived (cfg : Config) (r : Repository)
    (h : r.archived = false) :
    (classifyOrg cfg r = true ↔
      (r.daysSinceLastCommit > cfg.maxCommitAgeInDays ∧
        (r.totalContributors = 0 ∨ r.inactivePercentage ≥ cfg.inactiveContribThreshold)))
    ∧ (classifySingle cfg r = true ↔
      (r.daysSinceLastCommit > cfg.maxCommitAgeInDays ∧
        (r.totalContributors = 0 ∨ r.inactivePercentage ≥ cfg.inactiveContribThreshold)))
    ∧ (classifyFile cfg r = true ↔
      (r.daysSinceLastCommit > cfg.maxCommitAgeInDays ∧
        (r.totalContributors = 0 ∨ r.inactivePercentage ≥ cfg.inactiveContribThreshold))) := by
  unfold classifyOrg classifySingle classifyFile
  refine ⟨?_, ?_, ?_⟩
  · simp only [h]
    split_ifs <;> simp_all <;> omega
  · split_ifs <;> simp_all <;> omega
  · split_ifs <;> simp_all <;> omega

/-- Witness for C1: the sample stale, contributor-free, non-archived record is
flagged by all three classifiers for exactly the claimed reason. -/
theorem classify_flag_iff_of_not_archived_witness :
    sampleRepo.archived = false ∧
    ((classifyOrg sampleConfig sampleRepo = true ↔
      (sampleRepo.daysSinceLastCommit > sampleConfig.maxCommitAgeInDays ∧
        (sampleRepo.totalContributors = 0 ∨
          sampleRepo.inactivePercentage ≥ sampleConfig.inactiveContribThreshold)))
    ∧ (classifySingle sampleConfig sampleRepo = true ↔
      (sampleRepo.daysSinceLastCommit > sampleConfig.maxCommitAgeInDays ∧
        (sampleRepo.totalContributors = 0 ∨
          sampleRepo.inactivePercentage ≥ sampleConfig.inactiveContribThreshold)))
    ∧ (classifyFile sampleConfig sampleRepo = true ↔
      (sampleRepo.daysSinceLastCommit > sampleConfig.maxCommitAgeInDays ∧
        (sampleRepo.totalContributors = 0 ∨
          sampleRepo.inactivePercentage ≥ sampleConfig.inactiveContribThreshold)))) :=
  ⟨rfl, classify_flag_iff_of_not_archived sampleConfig sampleRepo rfl⟩

/-- Claim C2: an archived record is flagged unconditionally by the organization-mode
classifier, while the single-repository and file-batch classifiers ignore the
archived flag, so an archived repository that is not stale is not flagged there. -/
theorem archived_flag_org_only (cfg : Config) (r : Repository) (h : r.archived = true) :
    classifyOrg cfg r = true ∧
    (r.daysSinceLastCommit ≤ cfg.maxCommitAgeInDays →
      classifySingle cfg r = false ∧ classifyFile cfg r = false) := by
  refine ⟨by simp [classifyOrg, h], fun hd => ⟨?_, ?_⟩⟩
  · unfold classifySingle
    rw [if_neg (not_lt.mpr hd)]
  · unfold classifyFile
    rw [if_neg (not_lt.mpr hd)]

/-- Witness for C2: the sample archived, non-stale record is flagged in
organization mode and unflagged in single-repository and file-batch modes. -/
theorem archived_flag_org_only_witness :
    sampleArchivedRepo.archived = true ∧
    sampleArchivedRepo.daysSinceLastCommit ≤ sampleConfig.maxCommitAgeInDays ∧
    classifyOrg sampleConfig sampleArchivedRepo = true ∧
    classifySingle sampleConfig sampleArchivedRepo = false ∧
    classifyFile sampleConfig sampleArchivedRepo = false := by
  have h := archived_flag_org_only sampleConfig sampleArchivedRepo rfl
  have hd : sampleArchivedRepo.daysSinceLastCommit ≤ sampleConfig.maxCommitAgeInDays := by decide
  exact ⟨rfl, hd, h.1, (h.2 hd).1, (h.2 hd).2⟩

/-- Claim C3: every record produced by any of the three modes satisfies the
inactive-fraction invariant: the fraction is 0 when `totalContributors = 0`,
`inactiveContributors / totalContributors` otherwise, and always lies in [0, 1];
the precondition `inactiveContributors ≤ totalContributors` holds by construction. -/
theorem record_inactive_fraction_ok (cfg : Config) (now lastCommit : ℤ) (name : String)
    (archived : Bool) (active inactive : ℕ) :
    recordFractionOk (buildRecordOrg cfg now name archived lastCommit active inactive) ∧
    recordFractionOk (buildRecordSingle cfg now name archived lastCommit active inactive) ∧
    recordFractionOk (buildRecordFile cfg now name archived lastCommit active inactive) := by
  have hb := computeInactivePercentage_bounds (active + inactive) inactive (by omega)
  have hok : ∀ r : Repository, r.totalContributors = active + inactive →
      r.inactiveContributors = inactive →
      r.inactivePercentage = computeInactivePercentage (active + inactive) inactive →
      recordFractionOk r := by
    intro r h1 h2 h3
    refine ⟨by rw [h1, h2]; omega, ?_, ?_, ?_⟩
    · rw [h1, h2, h3, hb.1]
    · rw [h3]; exact hb.2.1
    · rw [h3]; exact hb.2.2
  exact ⟨hok _ rfl rfl rfl, hok _ rfl rfl rfl, hok _ rfl rfl rfl⟩

/-- Claim C4: re-parsing the Inactive Percentage column (index 5) of any rendered
CSV row yields the record's `inactivePercentage * 100` rounded to two decimal
places — a 0-100 percentage, not a 0-1 fraction — and the columns are in the exact
order Repository Name, Last Commit Date, Days Since Last Commit, Total
Contributors, Inactive Contributors, Inactive Percentage, Archived, Flagged. -/
theorem csv_percentage_roundtrip (r : Repository) (h : 0 ≤ r.inactivePercentage) :
    parseDecimal ((csvRowFields r).getD 5 "") = round2dp (r.inactivePercentage * 100) ∧
    (csvRowFields r).getD 5 "" = formatFloat2 (r.inactivePercentage * 100) ∧
    csvHeader = String.intercalate ","
      ["Repository Name", "Last Commit Date", "Days Since Last Commit",
       "Total Contributors", "Inactive Contributors", "Inactive Percentage",
       "Archived", "Flagged"] := by
  refine ⟨?_, rfl, by decide⟩
  show parseDecimal (formatFloat2 (r.inactivePercentage * 100)) = _
  exact parseDecimal_formatFloat2 _ (by positivity)

/-- Witness for C4 at the sample record (inactive fraction 0). -/
theorem csv_percentage_roundtrip_witness :
    0 ≤ sampleRepo.inactivePercentage ∧
    (parseDecimal ((csvRowFields sampleRepo).getD 5 "")
        = round2dp (sampleRepo.inactivePercentage * 100) ∧
      (csvRowFields sampleRepo).getD 5 ""
        = formatFloat2 (sampleRepo.inactivePercentage * 100) ∧
      csvHeader = String.intercalate ","
        ["Repository Name", "Last Commit Date", "Days Since Last Commit",
         "Total Contributors", "Inactive Contributors", "Inactive Percentage",
         "Archived", "Flagged"]) :=
  ⟨le_refl _, csv_percentage_roundtrip sampleRepo (le_refl _)⟩

/-- Claim C5 counterexample: the JSON member names the code emits (the
`json:"..."` struct tags, led by `name`) are not the field names §3 of the
specification lists (led by `identifier`). -/
theorem json_field_names_mismatch :
    (repoJsonFields sampleRepo).map Prod.fst ≠ specJsonFieldNames := by decide

/-- Claim C5 (amended): JSON output serializes the record sequence with the
struct-tag member names `name`, `lastCommitDate`, `daysSinceLastCommit`,
`totalContributors`, `inactiveContributors`, `inactivePercentage`, `archived`,
`flagged` (2-space indentation in the marshaller), written to `outputFile` when
set and printed otherwise. -/
theorem json_output_routing (r : Repository) (repos : List Repository) (cfg : Config)
    (now : ℤ) (hfmt : cfg.outputFormat = "json") :
    (repoJsonFields r).map Prod.fst
      = ["name", "lastCommitDate", "daysSinceLastCommit", "totalContributors",
         "inactiveContributors", "inactivePercentage", "archived", "flagged"] ∧
    (cfg.outputFile ≠ "" →
      (OutputResults repos cfg now).files = [(cfg.outputFile, jsonMarshalRepos repos)] ∧
      (OutputResults repos cfg now).console = ["💾 Results saved to " ++ cfg.outputFile ++ "\n"]) ∧
    (cfg.outputFile = "" →
      (OutputResults repos cfg now).files = [] ∧
      (OutputResults repos cfg now).console = [jsonMarshalRepos repos ++ "\n"]) := by
  refine ⟨rfl, fun hfile => ?_, fun hfile => ?_⟩ <;>
    simp [OutputResults, hfmt, hfile]

/-- Witness for C5 at the sample record and a JSON-to-file configuration. -/
theorem json_output_routing_witness :
    cfgJsonFile.outputFormat = "json" ∧ cfgJsonFile.outputFile ≠ "" ∧
    (repoJsonFields sampleRepo).map Prod.fst
      = ["name", "lastCommitDate", "daysSinceLastCommit", "totalContributors",
         "inactiveContributors", "inactivePercentage", "archived", "flagged"] ∧
    (OutputResults [sampleRepo] cfgJsonFile 0).files
      = [(cfgJsonFile.outputFile, jsonMarshalRepos [sampleRepo])] ∧
    (OutputResults [sampleRepo] cfgJsonFile 0).console
      = ["💾 Results saved to " ++ cfgJsonFile.outputFile ++ "\n"] := by
  have h := json_output_routing sampleRepo [sampleRepo] cfgJsonFile 0 rfl
  have hfile : cfgJsonFile.outputFile ≠ "" := by decide
  exact ⟨rfl, hfile, h.1, (h.2.1 hfile).1, (h.2.1 hfile).2⟩

/-- Claim C6: the organization-mode classifier is monotone in
`daysSinceLastCommit` with all other record and configuration fields held fixed:
once flagged, a larger commit age keeps the record flagged. -/
theorem classifyOrg_monotone_in_days (cfg : Config) (r : Repository) (d d' : ℤ)
    (hdd : d ≤ d')
    (hflag : classifyOrg cfg { r with daysSinceLastCommit := d } = true) :
    classifyOrg cfg { r with daysSinceLastCommit := d' } = true := by
  by_cases ha : r.archived
  · simp [classifyOrg, ha]
  · simp only [classifyOrg, ha] at hflag ⊢
    simp only [Bool.false_eq_true, if_false] at hflag ⊢
    by_cases hd : d > cfg.maxCommitAgeInDays
    · have hd' : d' > cfg.maxCommitAgeInDays := lt_of_lt_of_le hd hdd
      rw [if_pos hd] at hflag
      rw [if_pos hd']
      exact hflag
    · rw [if_neg hd] at hflag
      exact absurd hflag (by simp)

/-- Witness for C6: the sample record flagged at age 200 stays flagged at age 300. -/
theorem classifyOrg_monotone_in_days_witness :
    (200 : ℤ) ≤ 300 ∧
    classifyOrg sampleConfig { sampleRepo with daysSinceLastCommit := 200 } = true ∧
    classifyOrg sampleConfig { sampleRepo with daysSinceLastCommit := 300 } = true := by
  have h200 : classifyOrg sampleConfig { sampleRepo with daysSinceLastCommit := 200 } = true := by
    decide
  exact ⟨by decide, h200,
    classifyOrg_monotone_in_days sampleConfig sampleRepo 200 300 (by decide) h200⟩

/-- Claim C7: in an organization-mode run, a repository whose archived-status
check, commit-date retrieval, or contributor retrieval fails contributes no
record: the result of the run is the concatenation of the results for the
repositories before and after it, so processing continues. -/
theorem fetch_failure_skips_repository (fetchArchived : String → Except String Bool)
    (fetchLastCommit : String → Except String ℤ)
    (fetchContributors : String → Except String (ℕ × ℕ))
    (cfg : Config) (now : ℤ) (pre post : List String) (x : String)
    (hfail : (∃ e, fetchArchived (cfg.organization ++ "/" ++ x) = .error e) ∨
             (∃ e, fetchLastCommit (cfg.organization ++ "/" ++ x) = .error e) ∨
             (∃ e, fetchContributors (cfg.organization ++ "/" ++ x) = .error e)) :
    AnalyzeRepositories fetchArchived fetchLastCommit fetchContributors cfg now
        (pre ++ x :: post)
      = AnalyzeRepositories fetchArchived fetchLastCommit fetchContributors cfg now pre
        ++ AnalyzeRepositories fetchArchived fetchLastCommit fetchContributors cfg now post := by
  have hx : analyzeRepoOrg fetchArchived fetchLastCommit fetchContributors cfg now x = none := by
    rcases hfail with ⟨e, he⟩ | ⟨e, he⟩ | ⟨e, he⟩
    · simp [analyzeRepoOrg, he]
    · cases hfa : fetchArchived (cfg.organization ++ "/" ++ x) <;>
        simp [analyzeRepoOrg, hfa, he]
    · cases hfa : fetchArchived (cfg.organization ++ "/" ++ x) <;>
        cases hfc : fetchLastCommit (cfg.organization ++ "/" ++ x) <;>
        simp [analyzeRepoOrg, hfa, hfc, he]
  unfold AnalyzeRepositories
  rw [List.filterMap_append, List.filterMap_cons, hx]

/-- Witness for C7: with a stub data source whose commit lookup fails for
`acme/broken`, that repository is skipped and the neighbours are still analyzed. -/
theorem fetch_failure_skips_repository_witness :
    stubFetchLastCommit (sampleConfig.organization ++ "/" ++ "broken")
      = .error "no commits found" ∧
    AnalyzeRepositories stubFetchArchived stubFetchLastCommit stubFetchContributors
        sampleConfig 0 (["alpha"] ++ "broken" :: ["beta"])
      = AnalyzeRepositories stubFetchArchived stubFetchLastCommit stubFetchContributors
          sampleConfig 0 ["alpha"]
        ++ AnalyzeRepositories stubFetchArchived stubFetchLastCommit stubFetchContributors
          sampleConfig 0 ["beta"] :=
  ⟨rfl, fetch_failure_skips_repository stubFetchArchived stubFetchLastCommit
    stubFetchContributors sampleConfig 0 ["alpha"] ["beta"] "broken"
    (Or.inr (Or.inl ⟨"no commits found", rfl⟩))⟩

/-- Claim C8 counterexample: with the clock at 0 and a last-commit timestamp
172800 seconds (two days) in the future, the produced record has
`daysSinceLastCommit = -2 < 0`, so the field is not always nonnegative. -/
theorem days_negative_for_future_commit :
    (buildRecordOrg sampleConfig 0 "acme/widget" false 172800 1 0).daysSinceLastCommit < 0 := by
  show daysSince 0 172800 < 0
  have h1 : (((0 : ℤ) - 172800 : ℤ) : ℚ) / 3600 / 24 = ((-2 : ℤ) : ℚ) := by norm_num
  unfold daysSince ratTrunc
  rw [h1, if_neg (by norm_num), Int.ceil_intCast]
  norm_num

/-- Claim C8 (amended): in every mode the record's `daysSinceLastCommit` is
`(now - lastCommitAt)` in seconds divided by 86400 and truncated toward zero; it
is a nonnegative whole number of days whenever the last-commit timestamp does not
lie in the future, but a timestamp more than one day in the future makes it
negative. -/
theorem days_nonneg_of_past_commit (cfg : Config) (name : String) (archived : Bool)
    (active inactive : ℕ) (now lastCommit : ℤ) (h : lastCommit ≤ now) :
    (buildRecordOrg cfg now name archived lastCommit active inactive).daysSinceLastCommit
      = daysSince now lastCommit ∧
    (buildRecordSingle cfg now name archived lastCommit active inactive).daysSinceLastCommit
      = daysSince now lastCommit ∧
    (buildRecordFile cfg now name archived lastCommit active inactive).daysSinceLastCommit
      = daysSince now lastCommit ∧
    0 ≤ daysSince now lastCommit ∧
    daysSince now lastCommit = ⌊(((now - lastCommit : ℤ) : ℚ)) / 3600 / 24⌋ := by
  have h0 : (0 : ℚ) ≤ ((now - lastCommit : ℤ) : ℚ) := by
    exact_mod_cast sub_nonneg.mpr h
  have hq : 0 ≤ (((now - lastCommit : ℤ) : ℚ)) / 3600 / 24 :=
    div_nonneg (div_nonneg h0 (by norm_num)) (by norm_num)
  refine ⟨rfl, rfl, rfl, ?_, ?_⟩ <;>
    · unfold daysSince ratTrunc
      rw [if_pos hq]
      try exact Int.floor_nonneg.mpr hq

/-- Witness for C8 at a 200-day-old commit. -/
theorem days_nonneg_of_past_commit_witness :
    (0 : ℤ) ≤ 17280000 ∧
    ((buildRecordOrg sampleConfig 17280000 "acme/widget" false 0 1 0).daysSinceLastCommit
        = daysSince 17280000 0 ∧
      (buildRecordSingle sampleConfig 17280000 "acme/widget" false 0 1 0).daysSinceLastCommit
        = daysSince 17280000 0 ∧
      (buildRecordFile sampleConfig 17280000 "acme/widget" false 0 1 0).daysSinceLastCommit
        = daysSince 17280000 0 ∧
      0 ≤ daysSince 17280000 0 ∧
      daysSince 17280000 0 = ⌊((((17280000 : ℤ) - 0 : ℤ) : ℚ)) / 3600 / 24⌋) :=
  ⟨by decide, days_nonneg_of_past_commit sampleConfig "acme/widget" false 1 0 17280000 0
    (by decide)⟩

/-- Claim C9 counterexample: with an output file set, the CSV branch still prints
the total/flagged summary to the console, so the summary is not printed only when
writing to the console. -/
theorem csv_summary_printed_despite_file :
    cfgCsvFile.outputFile ≠ "" ∧
    ("Total repositories analyzed: " ++ natToDecStr 1 ++ "\n")
      ∈ (OutputResults [sampleRepo] cfgCsvFile 0).console ∧
    ("🚩 Flagged repositories: " ++ natToDecStr 1 ++ "\n")
      ∈ (OutputResults [sampleRepo] cfgCsvFile 0).console := by
  refine ⟨by decide, ?_, ?_⟩ <;> decide

/-- Claim C9 (amended): in CSV format the total/flagged summary is always printed
to the console — after the CSV body when no output file is set, and after the save
notice when one is set; the written file itself contains only the header row and
the data rows. -/
theorem csv_output_routing (repos : List Repository) (cfg : Config) (now : ℤ)
    (hfmt : cfg.outputFormat = "csv") :
    (cfg.outputFile ≠ "" →
      (OutputResults repos cfg now).files = [(cfg.outputFile, csvBody repos)] ∧
      (OutputResults repos cfg now).console
        = ("💾 Results saved to " ++ cfg.outputFile ++ "\n") :: csvSummary cfg repos) ∧
    (cfg.outputFile = "" →
      (OutputResults repos cfg now).files = [] ∧
      (OutputResults repos cfg now).console
        = (csvBody repos ++ "\n") :: csvSummary cfg repos) := by
  refine ⟨fun hfile => ?_, fun hfile => ?_⟩ <;>
    simp [OutputResults, hfmt, hfile]

/-- Witness for C9 at the sample record and a CSV-to-file configuration. -/
theorem csv_output_routing_witness :
    cfgCsvFile.outputFormat = "csv" ∧ cfgCsvFile.outputFile ≠ "" ∧
    (OutputResults [sampleRepo] cfgCsvFile 0).files
      = [(cfgCsvFile.outputFile, csvBody [sampleRepo])] ∧
    (OutputResults [sampleRepo] cfgCsvFile 0).console
      = ("💾 Results saved to " ++ cfgCsvFile.outputFile ++ "\n")
        :: csvSummary cfgCsvFile [sampleRepo] := by
  have h := csv_output_routing [sampleRepo] cfgCsvFile 0 rfl
  have hfile : cfgCsvFile.outputFile ≠ "" := by decide
  exact ⟨rfl, hfile, (h.1 hfile).1, (h.1 hfile).2⟩

/-- Claim C10: an empty record sequence (for example, every repository skipped or
none present) marshals to the literal `null` rather than `[]`, because the
accumulated slice is never initialized (a Go nil slice marshals as `null`), and
JSON console output therefore prints `null`. -/
theorem json_empty_marshals_null (cfg : Config) (now : ℤ)
    (hfmt : cfg.outputFormat = "json") (hfile : cfg.outputFile = "") :
    jsonMarshalRepos [] = "null" ∧
    (OutputResults [] cfg now).console = ["null" ++ "\n"] ∧
    (OutputResults [] cfg now).files = [] := by
  refine ⟨rfl, ?_, ?_⟩ <;> simp [OutputResults, hfmt, hfile, jsonMarshalRepos]

/-- Witness for C10 at the console JSON configuration. -/
theorem json_empty_marshals_null_witness :
    cfgJsonConsole.outputFormat = "json" ∧ cfgJsonConsole.outputFile = "" ∧
    (jsonMarshalRepos [] = "null" ∧
      (OutputResults [] cfgJsonConsole 0).console = ["null" ++ "\n"] ∧
      (OutputResults [] cfgJsonConsole 0).files = []) :=
  ⟨rfl, rfl, json_empty_marshals_null cfgJsonConsole 0 rfl rfl⟩
